import Mathlib

set_option autoImplicit false

/-!
Shallow embedding of `src/WattGauge.h` (classes `WattGauge` and `EnergyGauge`).

The C++ code works on `unsigned long` (32-bit) timestamps and counters and an
`int` (32-bit) published wattage.  We model `unsigned long` values as `Nat`
reduced modulo `2 ^ 32` and `int` as `Int`, making every conversion explicit.
-/

/-- `2 ^ 32`, the modulus of the C++ `unsigned long` arithmetic. -/
def UMOD : Nat := 4294967296

/-- Wraparound subtraction of two 32-bit unsigned values (`a - b` in C). -/
def wsub (a b : Nat) : Nat := (a % UMOD + (UMOD - b % UMOD)) % UMOD

/-- Conversion of a 32-bit unsigned value to a C `int` (32-bit two's complement),
as performed by the assignments to the `int _watt` field. -/
def toInt32 (v : Nat) : Int :=
  if v % UMOD < 2 ^ 31 then (v % UMOD : Int) else (v % UMOD : Int) - (UMOD : Int)

/-- Conversion of a C `int` to a 32-bit unsigned value, as performed by the
`unsigned` return type of `WattGauge::get_instantaneous_power`. -/
def toUInt32x (i : Int) : Nat := (i % (UMOD : Int)).toNat

/-- Unary minus on a 32-bit unsigned value (`-u` in C). -/
def negU (v : Nat) : Nat := (UMOD - v % UMOD) % UMOD

/-- State of `class WattGauge`: the three window slots `_t[3]` / `_p[3]`,
`_tlast`, `_watt` and `_data_valid`.  The C++ constructor leaves the window
slots and `_tlast` indeterminate; `init` below takes them to be zero (they are
unobservable through the public interface until `_data_valid` is set). -/
structure WattGauge where
  t0 : Nat
  t1 : Nat
  t2 : Nat
  p0 : Nat
  p1 : Nat
  p2 : Nat
  tlast : Nat
  watt : Int
  data_valid : Bool
  deriving Repr, DecidableEq

/-- `WattGauge::WattGauge()`: `_watt = 0`, `_data_valid = false`. -/
def WattGauge.init : WattGauge :=
  { t0 := 0, t1 := 0, t2 := 0, p0 := 0, p1 := 0, p2 := 0
    tlast := 0, watt := 0, data_valid := false }

/-- `WattGauge::_tdelta()`: `_t[2] - _t[0]`. -/
def WattGauge.tdelta (g : WattGauge) : Nat := wsub g.t2 g.t0

/-- `WattGauge::_pdelta()`: `_p[2] - _p[0]`. -/
def WattGauge.pdelta (g : WattGauge) : Nat := wsub g.p2 g.p0

/-- `WattGauge::_there_are_enough_values()`. -/
def WattGauge.there_are_enough_values (g : WattGauge) : Bool :=
  (20000 ≤ g.tdelta ∧ 6 ≤ g.pdelta) ∨
  (50000 ≤ g.tdelta ∧ 2 ≤ g.pdelta) ∨
  (300000 ≤ g.tdelta)

/-- `WattGauge::_recalculate_if_sensible()`. -/
def WattGauge.recalculate_if_sensible (g : WattGauge) : WattGauge :=
  if g.there_are_enough_values then
    { g with watt := toInt32 (g.pdelta * 1000 * 3600 % UMOD / g.tdelta) }
  else if 300000 < wsub g.tlast g.t0 then
    { g with watt := 0 }
  else g

/-- `WattGauge::reset()`. -/
def WattGauge.reset (g : WattGauge) : WattGauge :=
  if g.there_are_enough_values then
    { g with t0 := g.t1, p0 := g.p1, t1 := g.t2, p1 := g.p2 }
  else g

/-- `WattGauge::get_active_energy_total()`: returns `_p[2]`. -/
def WattGauge.get_active_energy_total (g : WattGauge) : Nat := g.p2

/-- `WattGauge::get_instantaneous_power()`: returns `_watt` as `unsigned`. -/
def WattGauge.get_instantaneous_power (g : WattGauge) : Nat := toUInt32x g.watt

/-- `WattGauge::interval_since_last_change()`: `_tlast - _t[2]`. -/
def WattGauge.interval_since_last_change (g : WattGauge) : Nat :=
  wsub g.tlast g.t2

/-- The window shift of `WattGauge::set_active_energy_total` (the
"Set first change" / "Update next to last change" branches). -/
def WattGauge.shift_window (g : WattGauge) (t wh : Nat) : WattGauge :=
  if g.t0 = g.t1 then
    { g with t1 := t, t2 := t, p1 := wh, p2 := wh }
  else
    { g with t1 := g.t2, p1 := g.p2, t2 := t, p2 := wh }

/-- The spike-adaptive reset step of `WattGauge::set_active_energy_total`:
`if ((_t[1] - _t[0]) > 60000 && (_p[1] - _p[0]) <= 1 && (_t[2] - _t[1]) < 15000) reset();` -/
def WattGauge.spike_check (g : WattGauge) : WattGauge :=
  if 60000 < wsub g.t1 g.t0 ∧ wsub g.p1 g.p0 ≤ 1 ∧ wsub g.t2 g.t1 < 15000 then
    g.reset
  else g

/-- `WattGauge::set_active_energy_total(unsigned long time_ms, unsigned long current_wh)`.
The two inputs are reduced modulo `2 ^ 32` exactly as the C++ parameter types do. -/
def WattGauge.set_active_energy_total (g : WattGauge) (time_ms current_wh : Nat) :
    WattGauge :=
  let t := time_ms % UMOD
  let wh := current_wh % UMOD
  let g1 : WattGauge := { g with tlast := t }
  if g1.data_valid = false then
    { g1 with t0 := t, t1 := t, t2 := t, p0 := wh, p1 := wh, p2 := wh,
              watt := 0, data_valid := true }
  else if wh = g1.p2 then
    if 30000 < wsub g1.tlast g1.t2 then
      if toInt32 (1 * 1000 * 3600 / wsub g1.tlast g1.t2) < g1.watt then
        { g1 with watt := toInt32 (1 * 1000 * 3600 / wsub g1.tlast g1.t2) }
      else g1
    else g1
  else
    ((g1.shift_window t wh).spike_check).recalculate_if_sensible

/-- State of `class EnergyGauge`: two inner `WattGauge`s and `_wprev`. -/
structure EnergyGauge where
  positive : WattGauge
  negative : WattGauge
  wprev : Int
  deriving Repr, DecidableEq

/-- `EnergyGauge::EnergyGauge()`. -/
def EnergyGauge.init : EnergyGauge :=
  { positive := WattGauge.init, negative := WattGauge.init, wprev := 0 }

/-- `EnergyGauge::get_positive_active_energy_total()`. -/
def EnergyGauge.get_positive_active_energy_total (e : EnergyGauge) : Nat :=
  e.positive.get_active_energy_total

/-- `EnergyGauge::get_negative_active_energy_total()`. -/
def EnergyGauge.get_negative_active_energy_total (e : EnergyGauge) : Nat :=
  e.negative.get_active_energy_total

/-- `EnergyGauge::get_instantaneous_power()`: the inner powers are `unsigned`;
the negation happens in unsigned arithmetic and the result is converted to
`int` by the return type. -/
def EnergyGauge.get_instantaneous_power (e : EnergyGauge) : Int :=
  if e.positive.interval_since_last_change < e.negative.interval_since_last_change then
    toInt32 e.positive.get_instantaneous_power
  else
    toInt32 (negU e.negative.get_instantaneous_power)

/-- `EnergyGauge::set_positive_active_energy_total`. -/
def EnergyGauge.set_positive_active_energy_total (e : EnergyGauge)
    (time_ms current_wh : Nat) : EnergyGauge :=
  { e with positive := e.positive.set_active_energy_total time_ms current_wh }

/-- `EnergyGauge::set_negative_active_energy_total`. -/
def EnergyGauge.set_negative_active_energy_total (e : EnergyGauge)
    (time_ms current_wh : Nat) : EnergyGauge :=
  { e with negative := e.negative.set_active_energy_total time_ms current_wh }

/-- `EnergyGauge::reset()`. -/
def EnergyGauge.reset (e : EnergyGauge) : EnergyGauge :=
  { e with wprev := e.get_instantaneous_power,
           positive := e.positive.reset,
           negative := e.negative.reset }

/-!
Exact model of the floating-point computation in
`EnergyGauge::has_significant_change`:
`float factor = (float)watt / (float)_wprev; if (0.6 < factor && factor < 1.6) ...`.
Binary32 / binary64 values are represented exactly as dyadic numbers
`(mantissa, exponent)` with value `mantissa * 2 ^ exponent`, and the IEEE-754
round-to-nearest-even roundings are carried out in integer arithmetic.
-/

/-- Fuelled integer base-2 logarithm (`2 ^ log2w n ≤ n < 2 ^ (log2w n + 1)`
for `0 < n < 2 ^ 64`, which covers every value that can reach the float
conversion below). -/
def log2Aux : Nat → Nat → Nat
  | 0, _ => 0
  | f + 1, n => if 2 ≤ n then log2Aux f (n / 2) + 1 else 0

/-- See `log2Aux`. -/
def log2w (n : Nat) : Nat := log2Aux 64 n

/-- Round `a / b` (with `0 < b`) to the nearest integer, ties to even:
the IEEE-754 default rounding. -/
def rne2 (a b : Nat) : Nat :=
  let q := a / b
  let r := a % b
  if 2 * r < b then q
  else if b < 2 * r then q + 1
  else if q % 2 = 0 then q else q + 1

/-- The binary32 value of a positive integer `n` (C cast `(float)n`), as a
normalized dyadic pair: mantissa in `[2 ^ 23, 2 ^ 24]`. -/
def f32ofPos (n : Nat) : Nat × Int :=
  let e := log2w n
  if e ≤ 23 then (n * 2 ^ (23 - e), (e : Int) - 23)
  else (rne2 n (2 ^ (e - 23)), (e : Int) - 23)

/-- Binary32 division of two positive normalized dyadic floats: the exact
quotient lies in `(1/2, 2]` times a power of two, and is rounded to 24
significant bits, ties to even. -/
def fdiv32 (x y : Nat × Int) : Nat × Int :=
  if y.1 ≤ x.1 then (rne2 (x.1 * 2 ^ 23) y.1, x.2 - y.2 - 23)
  else (rne2 (x.1 * 2 ^ 24) y.1, x.2 - y.2 - 24)

/-- Exact value comparison of two positive dyadic numbers. -/
def dlt (x y : Nat × Int) : Bool :=
  if x.2 ≤ y.2 then x.1 < y.1 * 2 ^ (y.2 - x.2).toNat
  else x.1 * 2 ^ (x.2 - y.2).toNat < y.1

/-- The binary64 value of the literal `0.6` (`3/5`, rounded to 53 bits). -/
def dlit06 : Nat × Int := (rne2 (3 * 2 ^ 53) 5, -53)

/-- The binary64 value of the literal `1.6` (`8/5`, rounded to 53 bits). -/
def dlit16 : Nat × Int := (rne2 (8 * 2 ^ 52) 5, -52)

/-- The condition `0.6 < (float)watt / (float)wprev && (float)watt / (float)wprev < 1.6`
of `EnergyGauge::has_significant_change`, modelled exactly per IEEE-754.
When `watt * wprev ≤ 0` the quotient is `±0`, negative, `±inf` or NaN, and the
comparison with the positive literal `0.6` makes the conjunction false; for
same-signed nonzero operands the quotient equals the positive quotient of the
absolute values. -/
def floatFactorSmall (watt wprev : Int) : Bool :=
  if watt * wprev ≤ 0 then false
  else
    let fac := fdiv32 (f32ofPos watt.natAbs) (f32ofPos wprev.natAbs)
    dlt dlit06 fac ∧ dlt fac dlit16

/-- `EnergyGauge::has_significant_change()`. -/
def EnergyGauge.has_significant_change (e : EnergyGauge) : Bool :=
  let watt := e.get_instantaneous_power
  if (e.wprev < 0 ∧ 0 < watt) ∨ (watt < 0 ∧ 0 < e.wprev) then true
  else if e.wprev = 0 ∧ (-20 < watt ∧ watt < 20) then false
  else if e.wprev = 0 then true
  else if floatFactorSmall watt e.wprev then false
  else true

/-- Feed a list of `(time_ms, current_wh)` samples to a `WattGauge`, in order
(the loop of the reference test driver). -/
def segFeed (g : WattGauge) (l : List (Nat × Nat)) : WattGauge :=
  l.foldl (fun s p => s.set_active_energy_total p.1 p.2) g

/-- Feed a list of timestamps to a `WattGauge`, each reporting the unchanged
cumulative value currently stored in `_p[2]`: a run in which the counter never
changes. -/
def silentRun (g : WattGauge) (ts : List Nat) : WattGauge :=
  ts.foldl (fun s t => s.set_active_energy_total t s.p2) g

/-- A single step of the driving loop: either a feed or a caller `reset`. -/
inductive GaugeOp where
  | feed (t wh : Nat)
  | reset
  deriving Repr, DecidableEq

/-- Apply one operation. -/
def applyOp (g : WattGauge) : GaugeOp → WattGauge
  | .feed t wh => g.set_active_energy_total t wh
  | .reset => g.reset

/-- Apply a list of operations, oldest first. -/
def runOps (g : WattGauge) (ops : List GaugeOp) : WattGauge :=
  ops.foldl applyOp g

/-- The caller contract of the spec, checked step by step: every feed carries a
32-bit representable timestamp and counter, timestamps never decrease (relative
to `_tlast`) and the counter never decreases (relative to `_p[2]`), once the
gauge holds valid data. -/
def admissibleFrom : WattGauge → List GaugeOp → Bool
  | _, [] => true
  | g, .feed t wh :: rest =>
      (!g.data_valid || (g.tlast ≤ t && g.p2 ≤ wh)) && t < UMOD && wh < UMOD &&
        admissibleFrom (g.set_active_energy_total t wh) rest
  | g, .reset :: rest => admissibleFrom g.reset rest

/-! ### Basic facts about the 32-bit arithmetic helpers -/

theorem UMOD_pos : 0 < UMOD := by norm_num [UMOD]

theorem wsub_lt (a b : Nat) : wsub a b < UMOD := Nat.mod_lt _ UMOD_pos

theorem wsub_eq_sub {a b : Nat} (hb : b ≤ a) (ha : a < UMOD) : wsub a b = a - b := by
  unfold wsub
  rw [Nat.mod_eq_of_lt (lt_of_le_of_lt hb ha), Nat.mod_eq_of_lt ha]
  have h : a + (UMOD - b) = (a - b) + UMOD := by
    have := lt_of_le_of_lt hb ha
    omega
  rw [h, Nat.add_mod_right, Nat.mod_eq_of_lt (by omega)]

theorem toInt32_of_lt {v : Nat} (h : v < 2 ^ 31) : toInt32 v = (v : Int) := by
  unfold toInt32
  have hm : v % UMOD = v := Nat.mod_eq_of_lt (by unfold UMOD at *; omega)
  rw [hm, if_pos h]
  unfold UMOD at *
  omega

theorem toUInt32x_eq {i : Int} (h0 : 0 ≤ i) (h1 : i < (UMOD : Int)) :
    toUInt32x i = i.toNat := by
  unfold toUInt32x
  rw [Int.emod_eq_of_lt h0 h1]

theorem toInt32_toUInt32x {i : Int} (h0 : 0 ≤ i) (h1 : i < 2 ^ 31) :
    toInt32 (toUInt32x i) = i := by
  have hu : i < (UMOD : Int) := by unfold UMOD; omega
  rw [toUInt32x_eq h0 hu, toInt32_of_lt (by omega)]
  omega

theorem toInt32_negU_toUInt32x {i : Int} (h0 : 0 ≤ i) (h1 : i < 2 ^ 31) :
    toInt32 (negU (toUInt32x i)) = -i := by
  have hu : i < (UMOD : Int) := by unfold UMOD; omega
  rw [toUInt32x_eq h0 hu]
  unfold negU toInt32
  have hv : i.toNat < UMOD := by unfold UMOD at *; omega
  rw [Nat.mod_eq_of_lt hv]
  rcases Nat.eq_zero_or_pos i.toNat with h | h
  · simp [h]
    omega
  · have hlt : UMOD - i.toNat < UMOD := by omega
    rw [Nat.mod_eq_of_lt hlt, Nat.mod_eq_of_lt hlt]
    have : ¬ (UMOD - i.toNat < 2 ^ 31) := by unfold UMOD at *; omega
    simp [this]
    unfold UMOD at *
    omega

/-! ### The three branches of `set_active_energy_total` -/

theorem set_total_init (g : WattGauge) (t wh : Nat) (h : g.data_valid = false) :
    g.set_active_energy_total t wh =
      { t0 := t % UMOD, t1 := t % UMOD, t2 := t % UMOD,
        p0 := wh % UMOD, p1 := wh % UMOD, p2 := wh % UMOD,
        tlast := t % UMOD, watt := 0, data_valid := true } := by
  unfold WattGauge.set_active_energy_total
  simp [h]

theorem set_total_silent (g : WattGauge) (t wh : Nat) (hv : g.data_valid = true)
    (heq : wh % UMOD = g.p2) :
    g.set_active_energy_total t wh =
      if 30000 < wsub (t % UMOD) g.t2 then
        if toInt32 (1 * 1000 * 3600 / wsub (t % UMOD) g.t2) < g.watt then
          { g with tlast := t % UMOD,
                   watt := toInt32 (1 * 1000 * 3600 / wsub (t % UMOD) g.t2) }
        else { g with tlast := t % UMOD }
      else { g with tlast := t % UMOD } := by
  unfold WattGauge.set_active_energy_total
  simp [hv, heq]

theorem set_total_change (g : WattGauge) (t wh : Nat) (hv : g.data_valid = true)
    (hne : ¬ wh % UMOD = g.p2) :
    g.set_active_energy_total t wh =
      ((({ g with tlast := t % UMOD }).shift_window (t % UMOD)
          (wh % UMOD)).spike_check).recalculate_if_sensible := by
  unfold WattGauge.set_active_energy_total
  simp [hv, hne]

/-! ### Frame lemmas: which fields each helper step leaves alone -/

theorem recalc_frame (g : WattGauge) :
    g.recalculate_if_sensible.t0 = g.t0 ∧ g.recalculate_if_sensible.t1 = g.t1 ∧
    g.recalculate_if_sensible.t2 = g.t2 ∧ g.recalculate_if_sensible.p0 = g.p0 ∧
    g.recalculate_if_sensible.p1 = g.p1 ∧ g.recalculate_if_sensible.p2 = g.p2 ∧
    g.recalculate_if_sensible.tlast = g.tlast ∧
    g.recalculate_if_sensible.data_valid = g.data_valid := by
  unfold WattGauge.recalculate_if_sensible
  split_ifs <;> simp

theorem reset_frame (g : WattGauge) :
    g.reset.watt = g.watt ∧ g.reset.tlast = g.tlast ∧ g.reset.t2 = g.t2 ∧
    g.reset.p2 = g.p2 ∧ g.reset.data_valid = g.data_valid := by
  unfold WattGauge.reset
  split_ifs <;> simp

theorem spike_frame (g : WattGauge) :
    g.spike_check.watt = g.watt ∧ g.spike_check.tlast = g.tlast ∧
    g.spike_check.t2 = g.t2 ∧ g.spike_check.p2 = g.p2 ∧
    g.spike_check.data_valid = g.data_valid := by
  unfold WattGauge.spike_check
  split_ifs
  · exact reset_frame g
  · simp

theorem shift_frame (g : WattGauge) (t wh : Nat) :
    (g.shift_window t wh).t0 = g.t0 ∧ (g.shift_window t wh).p0 = g.p0 ∧
    (g.shift_window t wh).t2 = t ∧ (g.shift_window t wh).p2 = wh ∧
    (g.shift_window t wh).tlast = g.tlast ∧ (g.shift_window t wh).watt = g.watt ∧
    (g.shift_window t wh).data_valid = g.data_valid := by
  unfold WattGauge.shift_window
  split_ifs <;> simp

/-! ### The "enough values" gate -/

theorem enough_iff (g : WattGauge) :
    g.there_are_enough_values = true ↔
      ((20000 ≤ g.tdelta ∧ 6 ≤ g.pdelta) ∨ (50000 ≤ g.tdelta ∧ 2 ≤ g.pdelta) ∨
        300000 ≤ g.tdelta) := by
  unfold WattGauge.there_are_enough_values
  simp

theorem enough_tdelta {g : WattGauge} (h : g.there_are_enough_values = true) :
    20000 ≤ g.tdelta := by
  rw [enough_iff] at h
  omega

/-! ### The published wattage is a small non-negative integer -/

theorem toInt32_bounds {v : Nat} (h : v < 2 ^ 31) :
    0 ≤ toInt32 v ∧ toInt32 v < 2 ^ 31 := by
  rw [toInt32_of_lt h]
  omega

theorem coe_toUInt32x {i : Int} (h0 : 0 ≤ i) (h1 : i < 2 ^ 31) :
    ((toUInt32x i : Nat) : Int) = i := by
  have hu : i < (UMOD : Int) := by unfold UMOD; omega
  rw [toUInt32x_eq h0 hu]
  omega

/-- `WattBounds g`: the published `_watt` is non-negative and far below
`INT_MAX`; preserved by every operation from construction on. -/
def WattBounds (g : WattGauge) : Prop := 0 ≤ g.watt ∧ g.watt < 2 ^ 31

theorem recalc_watt_bounds {g : WattGauge} (h : WattBounds g) :
    WattBounds g.recalculate_if_sensible := by
  unfold WattGauge.recalculate_if_sensible WattBounds at *
  split_ifs with h1 h2
  · have hxlt : g.pdelta * 1000 * 3600 % UMOD < UMOD := Nat.mod_lt _ UMOD_pos
    have htd : 20000 ≤ g.tdelta := enough_tdelta h1
    have hq : g.pdelta * 1000 * 3600 % UMOD / g.tdelta < 2 ^ 31 := by
      have ha : g.pdelta * 1000 * 3600 % UMOD / g.tdelta
          ≤ g.pdelta * 1000 * 3600 % UMOD / 20000 :=
        Nat.div_le_div_left htd (by norm_num)
      have hb : g.pdelta * 1000 * 3600 % UMOD / 20000 ≤ (UMOD - 1) / 20000 :=
        Nat.div_le_div_right (by omega)
      unfold UMOD at *
      omega
    simpa using toInt32_bounds hq
  · simp
  · exact h

theorem feed_watt_bounds (g : WattGauge) (t wh : Nat) (h : WattBounds g) :
    WattBounds (g.set_active_energy_total t wh) := by
  cases hdv : g.data_valid with
  | false =>
      rw [set_total_init g t wh hdv]
      constructor <;> simp
  | true =>
      by_cases heq : wh % UMOD = g.p2
      · rw [set_total_silent g t wh hdv heq]
        split_ifs with h1 h2
        · have hq : 1 * 1000 * 3600 / wsub (t % UMOD) g.t2 < 2 ^ 31 :=
            lt_of_le_of_lt (Nat.div_le_self _ _) (by norm_num)
          simpa [WattBounds] using toInt32_bounds hq
        · exact h
        · exact h
      · rw [set_total_change g t wh hdv heq]
        apply recalc_watt_bounds
        have hs := spike_frame (({ g with tlast := t % UMOD } : WattGauge).shift_window
          (t % UMOD) (wh % UMOD))
        have hw := (shift_frame ({ g with tlast := t % UMOD } : WattGauge)
          (t % UMOD) (wh % UMOD)).2.2.2.2.2.1
        unfold WattBounds at *
        rw [hs.1, hw]
        exact h

theorem reset_watt_bounds (g : WattGauge) (h : WattBounds g) : WattBounds g.reset := by
  unfold WattBounds at *
  rw [(reset_frame g).1]
  exact h

theorem runOps_watt_bounds (ops : List GaugeOp) (g : WattGauge) (h : WattBounds g) :
    WattBounds (runOps g ops) := by
  induction ops generalizing g with
  | nil => exact h
  | cons op rest ih =>
      cases op with
      | feed t wh => exact ih _ (feed_watt_bounds g t wh h)
      | reset => exact ih _ (reset_watt_bounds g h)

/-! ### Silent feeds: the counter equals the stored `_p[2]` -/

theorem silent_feed_facts (g : WattGauge) (t : Nat) (hv : g.data_valid = true)
    (hp2 : g.p2 < UMOD) :
    (g.set_active_energy_total t g.p2).t0 = g.t0 ∧
    (g.set_active_energy_total t g.p2).t1 = g.t1 ∧
    (g.set_active_energy_total t g.p2).t2 = g.t2 ∧
    (g.set_active_energy_total t g.p2).p0 = g.p0 ∧
    (g.set_active_energy_total t g.p2).p1 = g.p1 ∧
    (g.set_active_energy_total t g.p2).p2 = g.p2 ∧
    (g.set_active_energy_total t g.p2).data_valid = true ∧
    (g.set_active_energy_total t g.p2).watt ≤ g.watt ∧
    (0 ≤ g.watt → 0 ≤ (g.set_active_energy_total t g.p2).watt) ∧
    (30000 < wsub (t % UMOD) g.t2 →
      (toInt32 (1 * 1000 * 3600 / wsub (t % UMOD) g.t2) < g.watt →
        (g.set_active_energy_total t g.p2).watt =
          toInt32 (1 * 1000 * 3600 / wsub (t % UMOD) g.t2)) ∧
      (¬ toInt32 (1 * 1000 * 3600 / wsub (t % UMOD) g.t2) < g.watt →
        (g.set_active_energy_total t g.p2).watt = g.watt)) ∧
    (¬ 30000 < wsub (t % UMOD) g.t2 →
      (g.set_active_energy_total t g.p2).watt = g.watt) := by
  have hq : 1 * 1000 * 3600 / wsub (t % UMOD) g.t2 < 2 ^ 31 :=
    lt_of_le_of_lt (Nat.div_le_self _ _) (by norm_num)
  have hqb := toInt32_bounds hq
  rw [set_total_silent g t g.p2 hv (Nat.mod_eq_of_lt hp2)]
  split_ifs with h1 h2 <;> simp_all
  omega

theorem silentRun_facts (ts : List Nat) (g : WattGauge) (hv : g.data_valid = true)
    (hp2 : g.p2 < UMOD) :
    (silentRun g ts).t0 = g.t0 ∧ (silentRun g ts).t1 = g.t1 ∧
    (silentRun g ts).t2 = g.t2 ∧ (silentRun g ts).p0 = g.p0 ∧
    (silentRun g ts).p1 = g.p1 ∧ (silentRun g ts).p2 = g.p2 ∧
    (silentRun g ts).data_valid = true ∧
    (silentRun g ts).watt ≤ g.watt ∧
    (0 ≤ g.watt → 0 ≤ (silentRun g ts).watt) := by
  induction ts generalizing g with
  | nil => exact ⟨rfl, rfl, rfl, rfl, rfl, rfl, hv, le_refl _, fun h => h⟩
  | cons t rest ih =>
      have hf := silent_feed_facts g t hv hp2
      have hstep : silentRun g (t :: rest) =
          silentRun (g.set_active_energy_total t g.p2) rest := rfl
      have ih2 := ih (g.set_active_energy_total t g.p2)
        (hf.2.2.2.2.2.2.1) (by rw [hf.2.2.2.2.2.1]; exact hp2)
      refine ⟨?_, ?_, ?_, ?_, ?_, ?_, ?_, ?_, ?_⟩
      · rw [hstep, ih2.1, hf.1]
      · rw [hstep, ih2.2.1, hf.2.1]
      · rw [hstep, ih2.2.2.1, hf.2.2.1]
      · rw [hstep, ih2.2.2.2.1, hf.2.2.2.1]
      · rw [hstep, ih2.2.2.2.2.1, hf.2.2.2.2.1]
      · rw [hstep, ih2.2.2.2.2.2.1, hf.2.2.2.2.2.1]
      · rw [hstep]; exact ih2.2.2.2.2.2.2.1
      · rw [hstep]; exact le_trans ih2.2.2.2.2.2.2.2.1 hf.2.2.2.2.2.2.2.1
      · intro h0
        rw [hstep]
        exact ih2.2.2.2.2.2.2.2.2 (hf.2.2.2.2.2.2.2.2.1 h0)

/-! ### The stored total always mirrors the last fed value -/

theorem feed_p2 (g : WattGauge) (t wh : Nat) :
    (g.set_active_energy_total t wh).p2 = wh % UMOD := by
  cases hdv : g.data_valid with
  | false => rw [set_total_init g t wh hdv]
  | true =>
      by_cases heq : wh % UMOD = g.p2
      · rw [set_total_silent g t wh hdv heq]
        split_ifs <;> simp [← heq]
      · rw [set_total_change g t wh hdv heq]
        rw [(recalc_frame _).2.2.2.2.2.1, (spike_frame _).2.2.2.1,
          (shift_frame ({ g with tlast := t % UMOD } : WattGauge)
            (t % UMOD) (wh % UMOD)).2.2.2.1]

theorem segFeed_p2_last :
    ∀ (l : List (Nat × Nat)) (g : WattGauge) (p : Nat × Nat),
      l.getLast? = some p → (segFeed g l).p2 = p.2 % UMOD
  | [], _, _, h => by simp at h
  | [x], g, p, h => by
      have hx : x = p := by simpa using h
      subst hx
      simpa [segFeed] using feed_p2 g x.1 x.2
  | x :: y :: rest, g, p, h => by
      have h2 : (y :: rest).getLast? = some p := by
        rwa [List.getLast?_cons_cons] at h
      have hrec := segFeed_p2_last (y :: rest) (g.set_active_energy_total x.1 x.2) p h2
      simpa [segFeed] using hrec

/-- C7: `reset()` never modifies the published `_watt`; whenever the "enough
values" gate does not hold it leaves the whole gauge state unchanged, and when
the gate holds it slides the window (slot 0 ← slot 1, slot 1 ← slot 2) and
changes nothing else. -/
theorem c7_reset_is_gated_slide (g : WattGauge) :
    g.reset.watt = g.watt ∧
    (g.there_are_enough_values = false → g.reset = g) ∧
    (g.there_are_enough_values = true →
      g.reset = { g with t0 := g.t1, p0 := g.p1, t1 := g.t2, p1 := g.p2 }) := by
  refine ⟨(reset_frame g).1, ?_, ?_⟩ <;> intro h <;> unfold WattGauge.reset <;> simp [h]

/-- Witness for C7 at a concrete gauge whose gate holds: the slide happens. -/
theorem c7_reset_is_gated_slide_witness :
    (WattGauge.reset ⟨0, 10000, 20000, 0, 3, 6, 20000, 1080, true⟩ : WattGauge) =
      ⟨10000, 20000, 20000, 3, 6, 6, 20000, 1080, true⟩ :=
  (c7_reset_is_gated_slide ⟨0, 10000, 20000, 0, 3, 6, 20000, 1080, true⟩).2.2 (by decide)

/-- C8: after any non-empty sequence of feed calls, `get_active_energy_total()`
returns exactly the cumulative value passed to the most recent feed call,
regardless of the window state or the gate. -/
theorem c8_total_equals_last_fed (g : WattGauge) (l : List (Nat × Nat))
    (p : Nat × Nat) (hlast : l.getLast? = some p) (hwh : p.2 < UMOD) :
    (segFeed g l).get_active_energy_total = p.2 := by
  unfold WattGauge.get_active_energy_total
  rw [segFeed_p2_last l g p hlast, Nat.mod_eq_of_lt hwh]

/-- Witness for C8 on a concrete two-feed sequence. -/
theorem c8_total_equals_last_fed_witness :
    (segFeed WattGauge.init [(5, 7), (10, 9)]).get_active_energy_total = 9 :=
  c8_total_equals_last_fed WattGauge.init [(5, 7), (10, 9)] (10, 9) (by decide) (by decide)

/-- C10: along every operation sequence from construction (no caller contract
needed), the internal `_watt` stays non-negative and below `2 ^ 31`, so the
`unsigned` result of `get_instantaneous_power()` never wraps and equals the
stored `_watt` exactly. -/
theorem c10_watt_nonneg_power_exact (ops : List GaugeOp) :
    0 ≤ (runOps WattGauge.init ops).watt ∧
    (runOps WattGauge.init ops).watt < 2 ^ 31 ∧
    ((runOps WattGauge.init ops).get_instantaneous_power : Int) =
      (runOps WattGauge.init ops).watt := by
  have h := runOps_watt_bounds ops WattGauge.init ⟨by decide, by decide⟩
  refine ⟨h.1, h.2, ?_⟩
  unfold WattGauge.get_instantaneous_power
  exact coe_toUInt32x h.1 h.2

/-- C4: during any consecutive run of feed calls whose cumulative value equals
the stored `_p[2]`, the published watt never increases from call to call; on a
call whose stalled interval exceeds 30 000 ms the watt is lowered to
`3600000 / (time_ms - t2)` exactly when that quotient is below the current
watt, and the window slots are left untouched throughout. -/
theorem c4_stall_decay (g : WattGauge) (ts : List Nat) (t : Nat)
    (hv : g.data_valid = true) (hp2 : g.p2 < UMOD) :
    ((silentRun g ts).set_active_energy_total t g.p2).watt ≤ (silentRun g ts).watt ∧
    ((silentRun g ts).set_active_energy_total t g.p2).t0 = g.t0 ∧
    ((silentRun g ts).set_active_energy_total t g.p2).t1 = g.t1 ∧
    ((silentRun g ts).set_active_energy_total t g.p2).t2 = g.t2 ∧
    ((silentRun g ts).set_active_energy_total t g.p2).p0 = g.p0 ∧
    ((silentRun g ts).set_active_energy_total t g.p2).p1 = g.p1 ∧
    ((silentRun g ts).set_active_energy_total t g.p2).p2 = g.p2 ∧
    (30000 < wsub (t % UMOD) g.t2 →
      (toInt32 (1 * 1000 * 3600 / wsub (t % UMOD) g.t2) < (silentRun g ts).watt →
        ((silentRun g ts).set_active_energy_total t g.p2).watt =
          toInt32 (1 * 1000 * 3600 / wsub (t % UMOD) g.t2)) ∧
      (¬ toInt32 (1 * 1000 * 3600 / wsub (t % UMOD) g.t2) < (silentRun g ts).watt →
        ((silentRun g ts).set_active_energy_total t g.p2).watt =
          (silentRun g ts).watt)) ∧
    (¬ 30000 < wsub (t % UMOD) g.t2 →
      ((silentRun g ts).set_active_energy_total t g.p2).watt =
        (silentRun g ts).watt) := by
  have hr := silentRun_facts ts g hv hp2
  have hgp : (silentRun g ts).p2 = g.p2 := hr.2.2.2.2.2.1
  have hgt2 : (silentRun g ts).t2 = g.t2 := hr.2.2.1
  have hf := silent_feed_facts (silentRun g ts) t hr.2.2.2.2.2.2.1
    (by rw [hgp]; exact hp2)
  rw [← hgp, ← hgt2]
  exact ⟨hf.2.2.2.2.2.2.2.1,
    (hf.1).trans hr.1,
    (hf.2.1).trans hr.2.1,
    hf.2.2.1,
    (hf.2.2.2.1).trans hr.2.2.2.1,
    (hf.2.2.2.2.1).trans hr.2.2.2.2.1,
    hf.2.2.2.2.2.1,
    hf.2.2.2.2.2.2.2.2.2.1,
    hf.2.2.2.2.2.2.2.2.2.2⟩

/-- Concrete gauge for the C4 witness: the state reached by feeding
`(0, 0)` then `(20000, 6)` from construction (publishing 1080 W). -/
def c4gauge : WattGauge := ⟨0, 20000, 20000, 0, 6, 6, 20000, 1080, true⟩

/-- Witness for C4: a stalled call 40 000 ms after the last change lowers the
published watt to the hypothetical rate. -/
theorem c4_stall_decay_witness :
    ((silentRun c4gauge []).set_active_energy_total 60000 c4gauge.p2).watt =
      toInt32 (1 * 1000 * 3600 / wsub (60000 % UMOD) c4gauge.t2) :=
  ((c4_stall_decay c4gauge [] 60000 rfl (by decide)).2.2.2.2.2.2.2.1
    (by decide)).1 (by decide)

/-- C1 counterexample: a gauge that was publishing a positive wattage and then
receives a single silent feed whose span since the last change is 300 001 ms
(> 300 000 ms, counter unchanged) publishes 11 W afterwards, not 0 W. -/
theorem c1_counterexample :
    (segFeed WattGauge.init [(0, 0), (20000, 6)]).data_valid = true ∧
    0 < (segFeed WattGauge.init [(0, 0), (20000, 6)]).get_instantaneous_power ∧
    300000 < wsub 320001 (segFeed WattGauge.init [(0, 0), (20000, 6)]).t2 ∧
    ((segFeed WattGauge.init [(0, 0), (20000, 6)]).set_active_energy_total 320001
        (segFeed WattGauge.init [(0, 0), (20000, 6)]).p2).get_instantaneous_power
      = 11 ∧
    ¬ ((segFeed WattGauge.init [(0, 0), (20000, 6)]).set_active_energy_total 320001
        (segFeed WattGauge.init [(0, 0), (20000, 6)]).p2).get_instantaneous_power
      = 0 := by
  decide

/-- C1 (amended): prolonged total silence forces the estimate to zero only
once the silent span exceeds 3 600 000 ms (one hour): for a valid gauge with a
positive published watt, after any run of silent feeds followed by one whose
span since the last accepted change exceeds 3 600 000 ms, the published power
is 0.  (After 300 000 ms the stall decay only guarantees a value of at most
11 W, see the counterexample.) -/
theorem c1_amended_silence_forces_zero (g : WattGauge) (ts : List Nat) (tf : Nat)
    (hv : g.data_valid = true) (hp2 : g.p2 < UMOD) (hw : 0 < g.watt)
    (hspan : 3600000 < wsub (tf % UMOD) g.t2) :
    ((silentRun g ts).set_active_energy_total tf g.p2).get_instantaneous_power
      = 0 := by
  have hr := silentRun_facts ts g hv hp2
  have hgp : (silentRun g ts).p2 = g.p2 := hr.2.2.2.2.2.1
  have hgt2 : (silentRun g ts).t2 = g.t2 := hr.2.2.1
  have hf := silent_feed_facts (silentRun g ts) tf hr.2.2.2.2.2.2.1
    (by rw [hgp]; exact hp2)
  have hd : 30000 < wsub (tf % UMOD) (silentRun g ts).t2 := by rw [hgt2]; omega
  have hq : 1 * 1000 * 3600 / wsub (tf % UMOD) (silentRun g ts).t2 = 0 := by
    apply Nat.div_eq_of_lt
    rw [hgt2]
    omega
  have h0 : toInt32 (1 * 1000 * 3600 / wsub (tf % UMOD) (silentRun g ts).t2) = 0 := by
    rw [hq]
    decide
  have hw0 : 0 ≤ (silentRun g ts).watt := hr.2.2.2.2.2.2.2.2 (le_of_lt hw)
  have hst := hf.2.2.2.2.2.2.2.2.2.1 hd
  rw [← hgp]
  unfold WattGauge.get_instantaneous_power
  by_cases hlt : toInt32 (1 * 1000 * 3600 / wsub (tf % UMOD) (silentRun g ts).t2)
      < (silentRun g ts).watt
  · rw [hst.1 hlt, h0]
    decide
  · rw [hst.2 hlt]
    rw [h0] at hlt
    have hz : (silentRun g ts).watt = 0 := le_antisymm (not_lt.mp hlt) hw0
    rw [hz]
    decide

/-- Concrete gauge for the C1 witness (publishing 1080 W). -/
def c1gauge : WattGauge := ⟨0, 20000, 20000, 0, 6, 6, 20000, 1080, true⟩

/-- Witness for the amended C1: one hour of silence yields 0 W. -/
theorem c1_amended_silence_forces_zero_witness :
    ((silentRun c1gauge []).set_active_energy_total 4000000
        c1gauge.p2).get_instantaneous_power = 0 :=
  c1_amended_silence_forces_zero c1gauge [] 4000000 rfl (by decide) (by decide)
    (by decide)

/-- C5: with both inner wattages in their invariant range, the EnergyGauge
power is the positive gauge's power when the positive direction changed more
recently (strictly smaller interval), otherwise (ties included) the negation
of the negative gauge's power; it always equals exactly one inner gauge's
(possibly negated) value. -/
theorem c5_direction_arbitration (e : EnergyGauge)
    (hp0 : 0 ≤ e.positive.watt) (hp1 : e.positive.watt < 2 ^ 31)
    (hn0 : 0 ≤ e.negative.watt) (hn1 : e.negative.watt < 2 ^ 31) :
    (e.positive.interval_since_last_change < e.negative.interval_since_last_change →
      e.get_instantaneous_power = (e.positive.get_instantaneous_power : Int)) ∧
    (¬ e.positive.interval_since_last_change < e.negative.interval_since_last_change →
      e.get_instantaneous_power = -(e.negative.get_instantaneous_power : Int)) ∧
    (e.get_instantaneous_power = (e.positive.get_instantaneous_power : Int) ∨
     e.get_instantaneous_power = -(e.negative.get_instantaneous_power : Int)) := by
  have hp := toInt32_toUInt32x hp0 hp1
  have hn := toInt32_negU_toUInt32x hn0 hn1
  have hpc := coe_toUInt32x hp0 hp1
  have hnc := coe_toUInt32x hn0 hn1
  unfold EnergyGauge.get_instantaneous_power WattGauge.get_instantaneous_power
  split_ifs with hc
  · have hgoal : toInt32 (toUInt32x e.positive.watt) = ((toUInt32x e.positive.watt : Nat) : Int) := by
      rw [hp, hpc]
    exact ⟨fun _ => hgoal, fun h => absurd hc h, Or.inl hgoal⟩
  · have hgoal : toInt32 (negU (toUInt32x e.negative.watt)) =
        -((toUInt32x e.negative.watt : Nat) : Int) := by
      rw [hn, hnc]
    exact ⟨fun h => absurd h hc, fun _ => hgoal, Or.inr hgoal⟩

/-- Concrete EnergyGauge for the C5 witness: the positive direction changed
more recently, so its wattage (42) is reported as is. -/
def c5energy : EnergyGauge :=
  ⟨⟨0, 0, 0, 0, 0, 0, 5, 42, true⟩, ⟨0, 0, 0, 0, 0, 0, 9, 17, true⟩, 0⟩

/-- Witness for C5. -/
theorem c5_direction_arbitration_witness :
    c5energy.get_instantaneous_power = (c5energy.positive.get_instantaneous_power : Int) :=
  (c5_direction_arbitration c5energy (by decide) (by decide) (by decide)
    (by decide)).1 (by decide)

/-- The hysteresis rule exactly as the claim words it, with the factor clause
carried out in the source's single-precision floating point: significant on a
strict sign flip; for `w_prev = 0` significant exactly when the new value lies
outside `(-20, 20)`; otherwise not significant exactly when the float factor
`new / w_prev` lies strictly between `0.6` and `1.6`. -/
def significant_change_rule (e : EnergyGauge) : Bool :=
  if (e.wprev < 0 ∧ 0 < e.get_instantaneous_power) ∨
      (e.get_instantaneous_power < 0 ∧ 0 < e.wprev) then true
  else if e.wprev = 0 then
    (if -20 < e.get_instantaneous_power ∧ e.get_instantaneous_power < 20 then false
     else true)
  else ! floatFactorSmall e.get_instantaneous_power e.wprev

/-- C6 (amended): `has_significant_change()` follows the claim's case analysis
once the factor comparison is read as the source's single-precision
computation `0.6 < (float)watt / (float)w_prev && ... < 1.6` instead of an
exact rational comparison (see the counterexample for the discrepancy). -/
theorem c6_amended_hysteresis_rule (e : EnergyGauge) :
    e.has_significant_change = significant_change_rule e := by
  unfold EnergyGauge.has_significant_change significant_change_rule
  by_cases hA : (e.wprev < 0 ∧ 0 < e.get_instantaneous_power) ∨
      (e.get_instantaneous_power < 0 ∧ 0 < e.wprev)
  · simp [hA]
  · by_cases h0 : e.wprev = 0
    · by_cases hb : -20 < e.get_instantaneous_power ∧ e.get_instantaneous_power < 20
      · simp [hA, h0, hb]
      · simp [hA, h0, hb]
    · cases hsf : floatFactorSmall e.get_instantaneous_power e.wprev <;>
        simp [hA, h0, hsf]

/-- Concrete EnergyGauge state with `w_prev = 5` and current power `3`. -/
def c6energy : EnergyGauge :=
  ⟨⟨0, 0, 0, 0, 0, 0, 0, 3, true⟩, ⟨0, 0, 0, 0, 0, 0, 1, 0, true⟩, 5⟩

/-- C6 counterexample: at `w_prev = 5`, current power `3` (no sign flip,
`w_prev ≠ 0`), the exact rational factor is exactly `3 / 5 = 0.6`, which is
not strictly inside `(0.6, 1.6)`, so the claim as stated demands
"significant"; the code computes the factor in single precision, where
`(float)3 / (float)5` rounds up to slightly above `0.6`, and returns
"not significant". -/
theorem c6_counterexample :
    c6energy.has_significant_change = false ∧
    c6energy.get_instantaneous_power = 3 ∧
    c6energy.wprev = 5 ∧
    ¬ ((c6energy.wprev < 0 ∧ 0 < c6energy.get_instantaneous_power) ∨
       (c6energy.get_instantaneous_power < 0 ∧ 0 < c6energy.wprev)) ∧
    ¬ ((0.6 : ℚ) < (c6energy.get_instantaneous_power : ℚ) / (c6energy.wprev : ℚ) ∧
       ((c6energy.get_instantaneous_power : ℚ) / (c6energy.wprev : ℚ)) < (1.6 : ℚ)) := by
  refine ⟨by decide, by decide, by decide, by decide, ?_⟩
  have h3 : c6energy.get_instantaneous_power = 3 := by decide
  have h5 : c6energy.wprev = 5 := by decide
  rw [h3, h5]
  norm_num

/-! ### The window ordering invariant -/

/-- Once the gauge holds valid data, its window slots are ordered in time and
in energy, the last accepted sample is no later than the last seen timestamp,
and everything is 32-bit representable. -/
def WindowInv (g : WattGauge) : Prop :=
  g.data_valid = true →
    (g.t0 ≤ g.t1 ∧ g.t1 ≤ g.t2 ∧ g.t2 ≤ g.tlast ∧ g.tlast < UMOD ∧
     g.p0 ≤ g.p1 ∧ g.p1 ≤ g.p2 ∧ g.p2 < UMOD)

theorem reset_window_inv {g : WattGauge} (h : WindowInv g) : WindowInv g.reset := by
  unfold WattGauge.reset
  split_ifs with hg
  · intro hv
    simp only at hv ⊢
    have := h hv
    omega
  · exact h

theorem spike_window_inv {g : WattGauge} (h : WindowInv g) :
    WindowInv g.spike_check := by
  unfold WattGauge.spike_check
  split_ifs with hg
  · exact reset_window_inv h
  · exact h

theorem recalc_window_inv {g : WattGauge} (h : WindowInv g) :
    WindowInv g.recalculate_if_sensible := by
  have hf := recalc_frame g
  intro hv
  rw [hf.2.2.2.2.2.2.2] at hv
  rw [hf.1, hf.2.1, hf.2.2.1, hf.2.2.2.1, hf.2.2.2.2.1, hf.2.2.2.2.2.1,
    hf.2.2.2.2.2.2.1]
  exact h hv

theorem feed_window_inv (g : WattGauge) (t wh : Nat) (h : WindowInv g)
    (hadm : g.data_valid = true → (g.tlast ≤ t ∧ g.p2 ≤ wh))
    (ht : t < UMOD) (hwh : wh < UMOD) :
    WindowInv (g.set_active_energy_total t wh) := by
  have htm : t % UMOD = t := Nat.mod_eq_of_lt ht
  have hwm : wh % UMOD = wh := Nat.mod_eq_of_lt hwh
  cases hdv : g.data_valid with
  | false =>
      rw [set_total_init g t wh hdv]
      intro _
      simp only
      omega
  | true =>
      have hi := h hdv
      have ha := hadm hdv
      by_cases heq : wh % UMOD = g.p2
      · rw [set_total_silent g t wh hdv heq]
        split_ifs <;> intro _ <;> simp only <;> omega
      · rw [set_total_change g t wh hdv heq]
        apply recalc_window_inv
        apply spike_window_inv
        unfold WattGauge.shift_window
        split_ifs <;> intro _ <;> simp only <;> omega

theorem runOps_window_inv (ops : List GaugeOp) (g : WattGauge) (h : WindowInv g)
    (hadm : admissibleFrom g ops = true) : WindowInv (runOps g ops) := by
  induction ops generalizing g with
  | nil => exact h
  | cons op rest ih =>
      cases op with
      | feed t wh =>
          rw [admissibleFrom] at hadm
          simp only [Bool.and_eq_true, Bool.or_eq_true, Bool.not_eq_true',
            decide_eq_true_eq] at hadm
          exact ih _ (feed_window_inv g t wh h
            (fun hv => by
              rcases hadm.1.1.1 with hcase | hcase
              · rw [hv] at hcase; cases hcase
              · exact hcase)
            hadm.1.1.2 hadm.1.2) hadm.2
      | reset =>
          rw [admissibleFrom] at hadm
          exact ih _ (reset_window_inv h) hadm

/-- C9: starting from construction, along every admissible operation sequence
(non-decreasing timestamps and cumulative values, 32-bit inputs), the window
ordering invariant `t0 ≤ t1 ≤ t2` and `p0 ≤ p1 ≤ p2` is restored after every
operation once the first feed has occurred. -/
theorem c9_window_sorted (ops : List GaugeOp)
    (hadm : admissibleFrom WattGauge.init ops = true)
    (hv : (runOps WattGauge.init ops).data_valid = true) :
    (runOps WattGauge.init ops).t0 ≤ (runOps WattGauge.init ops).t1 ∧
    (runOps WattGauge.init ops).t1 ≤ (runOps WattGauge.init ops).t2 ∧
    (runOps WattGauge.init ops).p0 ≤ (runOps WattGauge.init ops).p1 ∧
    (runOps WattGauge.init ops).p1 ≤ (runOps WattGauge.init ops).p2 := by
  have h := runOps_window_inv ops WattGauge.init
    (by intro hbad; simp [WattGauge.init] at hbad) hadm hv
  exact ⟨h.1, h.2.1, h.2.2.2.2.1, h.2.2.2.2.2.1⟩

/-- Witness for C9: two feeds and a reset, then the window is sorted. -/
theorem c9_window_sorted_witness :
    (runOps WattGauge.init [.feed 5 10, .feed 30005 16, .reset]).t0 ≤
      (runOps WattGauge.init [.feed 5 10, .feed 30005 16, .reset]).t1 ∧
    (runOps WattGauge.init [.feed 5 10, .feed 30005 16, .reset]).t1 ≤
      (runOps WattGauge.init [.feed 5 10, .feed 30005 16, .reset]).t2 ∧
    (runOps WattGauge.init [.feed 5 10, .feed 30005 16, .reset]).p0 ≤
      (runOps WattGauge.init [.feed 5 10, .feed 30005 16, .reset]).p1 ∧
    (runOps WattGauge.init [.feed 5 10, .feed 30005 16, .reset]).p1 ≤
      (runOps WattGauge.init [.feed 5 10, .feed 30005 16, .reset]).p2 :=
  c9_window_sorted [.feed 5 10, .feed 30005 16, .reset] (by decide) (by decide)
/-- The reference fixture rows from `10:10:07.264` up to the first reset (the
rows of `_test_wattgauge` before the `RESET 335` marker), as `(ms, Wh)` pairs. -/
def c2seg1 : List (Nat × Nat) := [
  (36607264, 33130232), (36609223, 33130233), (36611053, 33130233),
  (36612878, 33130233), (36614708, 33130233), (36616538, 33130233),
  (36618368, 33130233), (36620199, 33130233), (36622029, 33130234),
  (36623858, 33130234), (36625687, 33130234), (36627517, 33130234),
  (36629347, 33130234), (36631177, 33130234), (36633007, 33130234),
  (36634936, 33130235), (36636766, 33130235), (36638594, 33130235),
  (36640425, 33130235), (36642256, 33130235), (36644086, 33130235),
  (36645915, 33130235), (36647978, 33130236), (36649808, 33130236),
  (36651637, 33130236), (36653467, 33130236), (36655297, 33130236),
  (36657127, 33130236), (36658958, 33130236), (36660988, 33130237),
  (36662819, 33130237), (36664648, 33130237), (36666478, 33130237),
  (36668308, 33130237)
]

/-- The reference fixture rows from `10:11:10.138` through `10:12:09.300` (the
rows of `_test_wattgauge` between the `RESET 335` and `RESET 1062` markers). -/
def c2seg2 : List (Nat × Nat) := [
  (36670138, 33130237), (36671969, 33130237), (36674032, 33130238),
  (36675861, 33130238), (36677692, 33130238), (36679522, 33130238),
  (36681352, 33130238), (36683182, 33130238), (36685013, 33130238),
  (36687075, 33130239), (36688905, 33130239), (36690735, 33130239),
  (36692565, 33130239), (36694396, 33130239), (36696226, 33130239),
  (36698056, 33130239), (36699886, 33130240), (36702382, 33130242),
  (36704212, 33130243), (36706840, 33130245), (36708670, 33130246),
  (36711332, 33130248), (36713162, 33130249), (36715823, 33130251),
  (36717653, 33130252), (36720282, 33130254), (36722146, 33130255),
  (36724775, 33130257), (36726604, 33130258), (36729300, 33130260)
]

theorem recalc_enough (g : WattGauge) :
    g.recalculate_if_sensible.there_are_enough_values = g.there_are_enough_values := by
  unfold WattGauge.there_are_enough_values WattGauge.tdelta WattGauge.pdelta
  rw [(recalc_frame g).1, (recalc_frame g).2.2.1, (recalc_frame g).2.2.2.1,
    (recalc_frame g).2.2.2.2.2.1]

/-- C2: on a feed that advances the counter, whenever the resulting window
passes the "enough values" gate, the published estimate is exactly
`(p2 - p0) * 3600000 / (t2 - t0)` in integer arithmetic (stated here under the
no-overflow side condition `(p2 - p0) * 3600000 < 2 ^ 32`, which makes the C
expression coincide with the exact integer formula); and the reference fixture
run anchored at `("10:10:47.978", 33130236)` and fed through
`("10:12:09.300", 33130260)` reads exactly 1062 W. -/
theorem c2_gate_formula_and_fixture (g : WattGauge) (t wh : Nat)
    (hv : g.data_valid = true) (hne : ¬ wh % UMOD = g.p2)
    (hgate : (g.set_active_energy_total t wh).there_are_enough_values = true)
    (hnof : wsub (g.set_active_energy_total t wh).p2
        (g.set_active_energy_total t wh).p0 * 3600000 < UMOD) :
    (g.set_active_energy_total t wh).watt =
      ((wsub (g.set_active_energy_total t wh).p2 (g.set_active_energy_total t wh).p0
          * 3600000 /
        wsub (g.set_active_energy_total t wh).t2 (g.set_active_energy_total t wh).t0
          : Nat) : Int) ∧
    (segFeed WattGauge.init c2seg1).reset.t0 = 36647978 ∧
    (segFeed WattGauge.init c2seg1).reset.p0 = 33130236 ∧
    (segFeed (segFeed WattGauge.init c2seg1).reset c2seg2).get_instantaneous_power
      = 1062 := by
  refine ⟨?_, by decide, by decide, by decide⟩
  rw [set_total_change g t wh hv hne] at hgate hnof ⊢
  rw [recalc_enough] at hgate
  have hfr := recalc_frame ((({ g with tlast := t % UMOD } : WattGauge).shift_window
    (t % UMOD) (wh % UMOD)).spike_check)
  rw [hfr.2.2.2.2.2.1, hfr.2.2.2.1] at hnof ⊢
  rw [hfr.1, hfr.2.2.1]
  set s2 := (({ g with tlast := t % UMOD } : WattGauge).shift_window
    (t % UMOD) (wh % UMOD)).spike_check with hs2def
  have hres : s2.recalculate_if_sensible =
      { s2 with watt := toInt32 (s2.pdelta * 1000 * 3600 % UMOD / s2.tdelta) } := by
    unfold WattGauge.recalculate_if_sensible
    rw [if_pos hgate]
  rw [hres]
  simp only
  have hmul : s2.pdelta * 1000 * 3600 = wsub s2.p2 s2.p0 * 3600000 := by
    unfold WattGauge.pdelta
    ring
  have htd : 20000 ≤ s2.tdelta := enough_tdelta hgate
  rw [hmul, Nat.mod_eq_of_lt hnof]
  have hq : wsub s2.p2 s2.p0 * 3600000 / s2.tdelta < 2 ^ 31 := by
    have ha : wsub s2.p2 s2.p0 * 3600000 / s2.tdelta
        ≤ wsub s2.p2 s2.p0 * 3600000 / 20000 :=
      Nat.div_le_div_left htd (by norm_num)
    have hb : wsub s2.p2 s2.p0 * 3600000 / 20000 ≤ (UMOD - 1) / 20000 :=
      Nat.div_le_div_right (by omega)
    unfold UMOD at *
    omega
  rw [toInt32_of_lt hq]
  rfl

/-- Witness for C2 at a concrete advancing feed whose window passes the gate. -/
theorem c2_gate_formula_and_fixture_witness :
    ((WattGauge.init.set_active_energy_total 0 0).set_active_energy_total 20000 6).watt =
      ((wsub ((WattGauge.init.set_active_energy_total 0 0).set_active_energy_total
            20000 6).p2
          ((WattGauge.init.set_active_energy_total 0 0).set_active_energy_total
            20000 6).p0 * 3600000 /
        wsub ((WattGauge.init.set_active_energy_total 0 0).set_active_energy_total
            20000 6).t2
          ((WattGauge.init.set_active_energy_total 0 0).set_active_energy_total
            20000 6).t0 : Nat) : Int) :=
  (c2_gate_formula_and_fixture (WattGauge.init.set_active_energy_total 0 0) 20000 6
    (by decide) (by decide) (by decide) (by decide)).1

/-- The window state after the shift step of `set_active_energy_total` (step
"Set first change" / "Update next to last change"), before the spike check and
the recalculation. -/
def WattGauge.after_shift (g : WattGauge) (time_ms current_wh : Nat) : WattGauge :=
  ({ g with tlast := time_ms % UMOD } : WattGauge).shift_window (time_ms % UMOD)
    (current_wh % UMOD)

theorem set_total_change_shift (g : WattGauge) (t wh : Nat)
    (hv : g.data_valid = true) (hne : ¬ wh % UMOD = g.p2) :
    g.set_active_energy_total t wh =
      ((g.after_shift t wh).spike_check).recalculate_if_sensible :=
  set_total_change g t wh hv hne

theorem reset_enough_false (s : WattGauge) (h3 : wsub s.t2 s.t1 < 15000) :
    s.reset.there_are_enough_values = false := by
  unfold WattGauge.reset
  split_ifs with hg
  · cases hE : ({ s with t0 := s.t1, p0 := s.p1, t1 := s.t2, p1 := s.p2 }
        : WattGauge).there_are_enough_values with
    | false => rfl
    | true =>
        exfalso
        have := enough_tdelta hE
        unfold WattGauge.tdelta at this
        simp only at this
        omega
  · cases hb : s.there_are_enough_values with
    | false => rfl
    | true => exact absurd hb hg

theorem recalc_no_gate (s : WattGauge) (h : s.there_are_enough_values = false) :
    s.recalculate_if_sensible =
      if 300000 < wsub s.tlast s.t0 then { s with watt := 0 } else s := by
  unfold WattGauge.recalculate_if_sensible
  rw [h]
  simp

/-- C3 (amended): on a counter-advancing feed whose post-shift window has a
long, nearly flat first segment (`t1 - t0 > 60000`, `p1 - p0 ≤ 1`) and a fast
newest segment (`t2 - t1 < 15000`), the internal `reset()` is invoked before
recomputing: the stale baseline slot is dropped exactly when the post-shift
window passes the "enough values" gate.  The shortened (or unchanged) window
then always fails the gate, so the power estimate is not recomputed on this
feed: it keeps its previous value, or is forced to 0 when the span since the
new window start exceeds 300 000 ms.  Only subsequent feeds compute estimates
from the newer points. -/
theorem c3_amended_spike_adaptive_reset (g : WattGauge) (t wh : Nat)
    (hv : g.data_valid = true) (hne : ¬ wh % UMOD = g.p2)
    (hspike : 60000 < wsub (g.after_shift t wh).t1 (g.after_shift t wh).t0 ∧
      wsub (g.after_shift t wh).p1 (g.after_shift t wh).p0 ≤ 1 ∧
      wsub (g.after_shift t wh).t2 (g.after_shift t wh).t1 < 15000) :
    ((g.after_shift t wh).there_are_enough_values = true →
      (g.set_active_energy_total t wh).t0 = (g.after_shift t wh).t1 ∧
      (g.set_active_energy_total t wh).p0 = (g.after_shift t wh).p1 ∧
      (g.set_active_energy_total t wh).t1 = (g.after_shift t wh).t2 ∧
      (g.set_active_energy_total t wh).p1 = (g.after_shift t wh).p2) ∧
    ((g.after_shift t wh).there_are_enough_values = false →
      (g.set_active_energy_total t wh).t0 = (g.after_shift t wh).t0 ∧
      (g.set_active_energy_total t wh).p0 = (g.after_shift t wh).p0 ∧
      (g.set_active_energy_total t wh).t1 = (g.after_shift t wh).t1 ∧
      (g.set_active_energy_total t wh).p1 = (g.after_shift t wh).p1) ∧
    (g.set_active_energy_total t wh).t2 = (g.after_shift t wh).t2 ∧
    (g.set_active_energy_total t wh).p2 = (g.after_shift t wh).p2 ∧
    (g.set_active_energy_total t wh).there_are_enough_values = false ∧
    (300000 < wsub (t % UMOD) (g.set_active_energy_total t wh).t0 →
      (g.set_active_energy_total t wh).watt = 0) ∧
    (¬ 300000 < wsub (t % UMOD) (g.set_active_energy_total t wh).t0 →
      (g.set_active_energy_total t wh).watt = g.watt) := by
  rw [set_total_change_shift g t wh hv hne]
  have hspk : (g.after_shift t wh).spike_check = (g.after_shift t wh).reset := by
    unfold WattGauge.spike_check
    rw [if_pos hspike]
  rw [hspk]
  have hgf := reset_enough_false (g.after_shift t wh) hspike.2.2
  have hsf := shift_frame ({ g with tlast := t % UMOD } : WattGauge) (t % UMOD)
    (wh % UMOD)
  have htl : (g.after_shift t wh).tlast = t % UMOD := by
    unfold WattGauge.after_shift
    rw [hsf.2.2.2.2.1]
  have hwa : (g.after_shift t wh).watt = g.watt := by
    unfold WattGauge.after_shift
    rw [hsf.2.2.2.2.2.1]
  cases hg : (g.after_shift t wh).there_are_enough_values with
  | true =>
      have hslide : (g.after_shift t wh).reset =
          { (g.after_shift t wh) with t0 := (g.after_shift t wh).t1,
                                      p0 := (g.after_shift t wh).p1,
                                      t1 := (g.after_shift t wh).t2,
                                      p1 := (g.after_shift t wh).p2 } := by
        unfold WattGauge.reset
        rw [if_pos hg]
      rw [hslide] at hgf ⊢
      rw [recalc_no_gate _ hgf]
      split_ifs with h300 <;>
        refine ⟨fun he => ?_, fun he => ?_, ?_, ?_, ?_, fun hsp => ?_, fun hsp => ?_⟩ <;>
        first
        | exact hgf
        | (simp_all [htl, hwa]; try omega)
  | false =>
      have hnoop : (g.after_shift t wh).reset = g.after_shift t wh := by
        unfold WattGauge.reset
        rw [if_neg (by simp [hg])]
      rw [hnoop] at hgf ⊢
      rw [recalc_no_gate _ hgf]
      split_ifs with h300 <;>
        refine ⟨fun he => ?_, fun he => ?_, ?_, ?_, ?_, fun hsp => ?_, fun hsp => ?_⟩ <;>
        first
        | exact hgf
        | (simp_all [htl, hwa]; try omega)

/-- The gauge reached by feeding `(0, 100)` then `(61000, 101)` from
construction: a long, flat first window segment. -/
def c3base : WattGauge := segFeed WattGauge.init [(0, 100), (61000, 101)]

/-- C3 counterexample: on the feed `(62000, 102)` the post-shift window meets
the spike condition (first segment 61 000 ms long with rise 1, newest segment
1000 ms), and the internal reset does drop the stale baseline, but the
resulting published power is the retained previous value 0, not an estimate
computed from the newer two points only (which would be
`1 * 3600000 / 1000 = 3600` W): the shortened window fails the gate, so no
recomputation happens on this feed. -/
theorem c3_counterexample :
    c3base.data_valid = true ∧
    ¬ (102 : Nat) % UMOD = c3base.p2 ∧
    60000 < wsub (c3base.after_shift 62000 102).t1 (c3base.after_shift 62000 102).t0 ∧
    wsub (c3base.after_shift 62000 102).p1 (c3base.after_shift 62000 102).p0 ≤ 1 ∧
    wsub (c3base.after_shift 62000 102).t2 (c3base.after_shift 62000 102).t1 < 15000 ∧
    (c3base.set_active_energy_total 62000 102).t0 = (c3base.after_shift 62000 102).t1 ∧
    (c3base.set_active_energy_total 62000 102).watt = 0 ∧
    toInt32 (wsub (c3base.after_shift 62000 102).p2 (c3base.after_shift 62000 102).p1
        * 3600000 /
      wsub (c3base.after_shift 62000 102).t2 (c3base.after_shift 62000 102).t1) = 3600 ∧
    ¬ (c3base.set_active_energy_total 62000 102).watt =
      toInt32 (wsub (c3base.after_shift 62000 102).p2 (c3base.after_shift 62000 102).p1
          * 3600000 /
        wsub (c3base.after_shift 62000 102).t2 (c3base.after_shift 62000 102).t1) := by
  decide

/-- Witness for the amended C3 at the concrete spike scenario: the baseline is
dropped (slot 0 becomes the old slot 1) and the published watt keeps its
previous value. -/
theorem c3_amended_spike_adaptive_reset_witness :
    (c3base.set_active_energy_total 62000 102).t0 =
      (c3base.after_shift 62000 102).t1 ∧
    (c3base.set_active_energy_total 62000 102).watt = c3base.watt :=
  have h := c3_amended_spike_adaptive_reset c3base 62000 102 (by decide) (by decide)
    ⟨by decide, by decide, by decide⟩
  ⟨(h.1 (by decide)).1, h.2.2.2.2.2.2 (by decide)⟩

/-- Witness for the amended C6 at the concrete state of the counterexample. -/
theorem c6_amended_hysteresis_rule_witness :
    c6energy.has_significant_change = significant_change_rule c6energy :=
  c6_amended_hysteresis_rule c6energy

/-- Witness for C10 on a concrete one-feed sequence. -/
theorem c10_watt_nonneg_power_exact_witness :
    0 ≤ (runOps WattGauge.init [GaugeOp.feed 0 5]).watt ∧
    (runOps WattGauge.init [GaugeOp.feed 0 5]).watt < 2 ^ 31 ∧
    ((runOps WattGauge.init [GaugeOp.feed 0 5]).get_instantaneous_power : Int) =
      (runOps WattGauge.init [GaugeOp.feed 0 5]).watt :=
  c10_watt_nonneg_power_exact [GaugeOp.feed 0 5]
